import Mathlib

/-!
Verification development for the BlenderRenderFarm orchestration core.

The definitions below are a shallow embedding of the Python source:
- `src/backend/tasks.py` (`render_blend_file`): the per-line progress parser
  (`parseLine` with its helpers `fraEvent`, `sampleEvent`, `etaText`), and the
  post-exit finalization logic (`finalizeRender`, lines 152-177).
- `src/backend/app.py`: the submission-time validation (`uploadValidate`,
  `upload_file` lines 53-128) and the status endpoint (`get_status`,
  lines 131-163).

Modelling conventions:
- Python optional integers are `Option Int`; Python truthiness of such a value
  (`if frame_start:`) is `truthy` (false exactly for `None` and `0`).
- Python float arithmetic in the progress computations is modelled exactly over
  the integers/rationals: `int(x)` on a nonnegative quotient is truncated
  division (`Int.tdiv` for integers, `Nat` division for sample counts), and the
  ETA computation over wall-clock time is carried out in `ℚ` with `pyTrunc`
  (truncation toward zero, Python `int()`) and `pyMod` (Python `%` for a
  positive divisor).
- A line of process output is a `List Char`; `containsList` is Python's
  substring test (`'Fra:' in line`), and `findAfter` / `findSample` embed the
  scanning behaviour of `re.search` for the patterns `Fra:(\d+)` and
  `Sample (\d+)/(\d+)` (first match position, greedy digit runs).
- Filesystem effects of finalization are modelled on `FsState`: whether the
  uploaded input copy still exists and the entries of the job's output
  directory.
-/

namespace BlenderFarm

/-- Python truthiness of an optional integer: `None` and `0` are falsy,
every other integer is truthy. -/
def truthy : Option Int → Bool
  | none => false
  | some n => n != 0

/-- Greedy run of leading decimal digits, the `\d+` part of the regexes in
`tasks.py`. -/
def takeDigits : List Char → List Char
  | [] => []
  | c :: cs => if c.isDigit then c :: takeDigits cs else []

/-- Numeric value of a digit run (the `int(...)` applied to a regex group). -/
def digitsVal (ds : List Char) : Nat :=
  ds.foldl (fun a c => 10 * a + (c.toNat - '0'.toNat)) 0

/-- Python substring test `pat in line`. -/
def containsList (pat : List Char) : List Char → Bool
  | [] => pat.isEmpty
  | c :: cs => pat.isPrefixOf (c :: cs) || containsList pat cs

/-- Embedding of `re.search(r'<pat>(\d+)', line)`: scan left to right for the
first position where the literal `pat` is immediately followed by at least one
digit, and return the value of the greedy digit run there. -/
def findAfter (pat : List Char) : List Char → Option Nat
  | [] => none
  | c :: cs =>
    if pat.isPrefixOf (c :: cs) then
      let ds := takeDigits ((c :: cs).drop pat.length)
      if ds.isEmpty then findAfter pat cs else some (digitsVal ds)
    else findAfter pat cs

/-- Embedding of `re.search(r'Sample (\d+)/(\d+)', line)`: scan left to right
for the first position where the literal `Sample ` is followed by a digit run,
a `/`, and a second digit run; return both values. -/
def findSample : List Char → Option (Nat × Nat)
  | [] => none
  | c :: cs =>
    if ("Sample ".data).isPrefixOf (c :: cs) then
      let rest := (c :: cs).drop 7
      let d1 := takeDigits rest
      if d1.isEmpty then findSample cs
      else
        match rest.drop d1.length with
        | '/' :: rest2 =>
          let d2 := takeDigits rest2
          if d2.isEmpty then findSample cs
          else some (digitsVal d1, digitsVal d2)
        | _ => findSample cs
    else findSample cs

/-- Python `int()` truncation toward zero, applied to an exact rational. -/
def pyTrunc (q : ℚ) : Int := if 0 ≤ q then ⌊q⌋ else ⌈q⌉

/-- Python `%` on rationals (exact model of float `%`) for use with the
positive divisor 60: `a % b = a - b * floor(a / b)`. -/
def pyMod (a b : ℚ) : ℚ := a - b * (⌊a / b⌋ : Int)

/-- One progress update written by `self.update_state(state='PROGRESS', meta=...)`
in `render_blend_file`; optional fields default to absent as in the dicts the
code builds. -/
structure ProgressMeta where
  status : String
  progress : Int
  current_frame : Option Int := none
  total_frames : Option Int := none
deriving DecidableEq

/-- `tasks.py` line 89: `total_frames = (frame_end - frame_start + 1) if
frame_end and frame_start else 1`. -/
def totalFrames (frame_start frame_end : Option Int) : Int :=
  if truthy frame_end && truthy frame_start then
    frame_end.getD 0 - frame_start.getD 0 + 1
  else 1

/-- ETA text built in `tasks.py` lines 110-122: average seconds per frame is
`elapsed / frames_done`, the projection is `remaining * average`, printed as
minutes plus seconds when strictly greater than 60 seconds, else as seconds;
empty when no frame has completed. -/
def etaText (elapsed : ℚ) (frames_done total_frames : Int) : String :=
  if 0 < frames_done then
    let avg_time_per_frame : ℚ := elapsed / (frames_done : ℚ)
    let remaining_frames : Int := total_frames - frames_done
    let eta_seconds : ℚ := (remaining_frames : ℚ) * avg_time_per_frame
    if 60 < eta_seconds then
      s!" - ETA: {pyTrunc (eta_seconds / 60)}m {pyTrunc (pyMod eta_seconds 60)}s"
    else
      s!" - ETA: {pyTrunc eta_seconds}s"
  else ""

/-- The event emitted for a line containing `Fra:` whose regex search found a
frame number `n` (`tasks.py` lines 104-131): frame-based progress with ETA when
`frame_start` is truthy (a division by a zero `total_frames` raises and is
swallowed by the bare `except`, emitting nothing), else the fixed heartbeat. -/
def fraEvent (frame_start frame_end : Option Int) (elapsed : ℚ) (n : Nat) :
    Option ProgressMeta :=
  let current_frame : Int := (n : Int)
  if truthy frame_start then
    let total := totalFrames frame_start frame_end
    if total = 0 then none
    else
      let frames_done := current_frame - frame_start.getD 0 + 1
      let progress := min (Int.tdiv (frames_done * 90) total) 90
      let dispEnd : Int := if truthy frame_end then frame_end.getD 0 else current_frame
      some { status := s!"Rendering frame {current_frame}/{dispEnd}{etaText elapsed frames_done total}"
             progress := progress
             current_frame := some current_frame
             total_frames := some dispEnd }
  else
    some { status := "Rendering...", progress := 50 }

/-- The event emitted for a `Sample current/total` match (`tasks.py` lines
140-148): only honored when `frame_end` is falsy; a zero total raises
`ZeroDivisionError`, swallowed by the bare `except`, emitting nothing. -/
def sampleEvent (frame_end : Option Int) (c t : Nat) : Option ProgressMeta :=
  if truthy frame_end then none
  else if t = 0 then none
  else some { status := s!"Sampling {c}/{t}", progress := ((c * 90) / t : Nat) }

/-- The per-line progress parser of `render_blend_file` (`tasks.py` lines
99-150): the `if 'Fra:' in line / elif 'Saved:' in line / elif 'Sample' in line
and '/' in line` cascade. `elapsed` is the wall-clock time since the render
started, sampled when the line is processed. -/
def parseLine (frame_start frame_end : Option Int) (elapsed : ℚ)
    (line : List Char) : Option ProgressMeta :=
  if containsList "Fra:".data line then
    match findAfter "Fra:".data line with
    | some n => fraEvent frame_start frame_end elapsed n
    | none => none
  else if containsList "Saved:".data line then
    some { status := "Finalizing...", progress := 95 }
  else if containsList "Sample".data line && containsList "/".data line then
    match findSample line with
    | some (c, t) => sampleEvent frame_end c t
    | none => none
  else none

/-- The two fixed updates written before any output line is parsed
(`tasks.py` lines 22 and 78). -/
def initialEvents : List ProgressMeta :=
  [{ status := "Starting render...", progress := 0 },
   { status := "Rendering...", progress := 10 }]

/-- Modelled from the spec (section 4.2, ETA contract), with the format
boundary amended to the code's strict comparison: the running average is
`elapsed / frames_completed`, the projected remainder is
`average * frames_remaining`, formatted as minutes plus seconds when strictly
greater than 60 seconds, else as seconds. Used to compare the source's
`etaText` against the spec's wording. -/
def etaSpecText (elapsed : ℚ) (frames_completed frames_remaining : Int) : String :=
  let average : ℚ := elapsed / (frames_completed : ℚ)
  let projected : ℚ := average * (frames_remaining : ℚ)
  if 60 < projected then
    s!" - ETA: {pyTrunc (projected / 60)}m {pyTrunc (pyMod projected 60)}s"
  else
    s!" - ETA: {pyTrunc projected}s"

/-- Result dict returned by `render_blend_file` on success (`tasks.py` lines
165-170); the `output_dir` path string is elided. -/
structure RenderResult where
  job_id : String
  status : String
  output_files : List String
deriving DecidableEq

/-- Terminal outcome of the task body: the returned dict, or the exception
raised for a non-zero exit code (its message). -/
inductive Outcome where
  | completed (result : RenderResult)
  | error (message : String)
deriving DecidableEq

/-- Filesystem facts finalization touches: whether the uploaded input copy
still exists, and the entries of the job's output directory. -/
structure FsState where
  inputExists : Bool
  outputEntries : List String
deriving DecidableEq

/-- Python `f.startswith('.')`. -/
def startsDot (f : String) : Bool :=
  match f.data with
  | '.' :: _ => true
  | _ => false

/-- `tasks.py` line 163: `[f for f in os.listdir(output_dir) if not
f.startswith('.')]`. -/
def visibleFiles (entries : List String) : List String :=
  entries.filter (fun f => !startsDot f)

/-- The exception message built at `tasks.py` line 156:
`f'Blender render failed with code {returncode}:\n{full_output}'` where
`full_output = '\n'.join(output_lines)`. -/
def failMessage (returncode : Int) (output_lines : List String) : String :=
  "Blender render failed with code " ++ toString returncode ++ ":\n"
    ++ String.intercalate "\n" output_lines

/-- Post-exit logic of `render_blend_file` (`tasks.py` lines 152-177): a
non-zero exit code raises with the full captured output, the `except` block
removes the uploaded input and re-raises; exit code 0 removes the uploaded
input, lists the non-hidden entries of the output directory, and returns the
completed result. Neither branch touches the output directory's contents. -/
def finalizeRender (job_id : String) (returncode : Int)
    (output_lines : List String) (fs : FsState) : Outcome × FsState :=
  if returncode ≠ 0 then
    (.error (failMessage returncode output_lines), { fs with inputExists := false })
  else
    (.completed { job_id := job_id, status := "completed",
                  output_files := visibleFiles fs.outputEntries },
     { fs with inputExists := false })

/-- `config.SUPPORTED_FORMATS` from `config.py`. -/
def SUPPORTED_FORMATS : List String := ["PNG", "JPEG", "OPEN_EXR", "FFMPEG"]

/-- Submission parameters as read from the upload form in `upload_file`
(`app.py` lines 53-59): `frame_start`/`frame_end` are `None` when the form
field is absent or empty, otherwise the parsed integer. -/
structure UploadForm where
  format : String
  samples : Int
  resolution_x : Int
  resolution_y : Int
  frame_start : Option Int
  frame_end : Option Int
deriving DecidableEq

/-- Arguments passed to `render_blend_file.apply_async` (`app.py` lines
112-121). -/
structure TaskCall where
  output_format : String
  samples : Int
  resolution_x : Int
  resolution_y : Int
  frame_start : Option Int
  frame_end : Option Int
deriving DecidableEq

/-- Either a synchronous rejection (HTTP status code; the error text is
elided) or a queued task. -/
inductive UploadResponse where
  | rejected (httpStatus : Nat)
  | queued (task : TaskCall)
deriving DecidableEq

/-- Parameter validation and queueing path of `upload_file` (`app.py` lines
53-128) for a plain `.blend` upload (the file-presence and archive-extraction
checks concern the out-of-scope upload collaborator): the only parameter check
is membership of `format` in `SUPPORTED_FORMATS`; every other parameter is
forwarded to the queued task unchecked. -/
def uploadValidate (form : UploadForm) : UploadResponse :=
  if form.format ∉ SUPPORTED_FORMATS then .rejected 400
  else .queued { output_format := form.format, samples := form.samples,
                 resolution_x := form.resolution_x,
                 resolution_y := form.resolution_y,
                 frame_start := form.frame_start, frame_end := form.frame_end }

/-- Celery task state as observed by the status endpoint. The `failure` case
stands for every state other than PENDING, PROGRESS and SUCCESS, which
`get_status` handles with its final `else` branch. -/
inductive TaskState where
  | pending
  | progress (meta : ProgressMeta)
  | success (result : RenderResult)
  | failure (message : String)
deriving DecidableEq

/-- JSON body produced by `get_status` (`app.py` lines 136-163); the
`result` field of the SUCCESS branch is elided. -/
structure StatusResponse where
  state : String
  status : String
  progress : Int
deriving DecidableEq

/-- The status endpoint `get_status` (`app.py` lines 131-163). -/
def get_status : TaskState → StatusResponse
  | .pending => { state := "PENDING", status := "Pending...", progress := 0 }
  | .progress m => { state := "PROGRESS", status := m.status, progress := m.progress }
  | .success _ => { state := "SUCCESS", status := "Render completed", progress := 100 }
  | .failure msg => { state := "FAILURE", status := msg, progress := 0 }

/-- Modelled library semantics (`celery.AsyncResult`, used at `app.py` line
134): looking up a task id that was never submitted does not fail; Celery
reports state PENDING for unknown ids, so the endpoint sees `pending` for
them. -/
def asyncResult (store : List (String × TaskState)) (id : String) : TaskState :=
  (store.lookup id).getD .pending


/-! ## Claim C1: success requires artifacts -/

/-- C1 counterexample: the external process exits 0 with an empty output
directory, yet finalization returns the completed outcome (with an empty file
list) — the code never checks for artifacts, so the job ends Succeeded, not
Failed with a NoArtifactsError. -/
theorem C1_counterexample :
    (finalizeRender "job-1" 0 ["Fra:1 rendered"] { inputExists := true, outputEntries := [] }).1 =
      Outcome.completed { job_id := "job-1", status := "completed", output_files := [] } := by
  decide

/-- C1 amended: for every job whose external render process exits with code 0,
the job ends Succeeded unconditionally, carrying the (possibly empty) list of
non-hidden files of its output directory; emptiness is not detected and no
NoArtifactsError exists. -/
theorem C1_amended (job_id : String) (output_lines : List String) (fs : FsState) :
    (finalizeRender job_id 0 output_lines fs).1 =
      Outcome.completed { job_id := job_id, status := "completed",
                          output_files := visibleFiles fs.outputEntries } := by
  simp [finalizeRender]

/-! ## Claim C3: submission-time validation -/

/-- C3 counterexample: a submission with non-positive samples and a frame range
with only `frame_start` set passes validation and is queued; only the format is
checked. -/
theorem C3_counterexample :
    uploadValidate { format := "PNG", samples := -5, resolution_x := 1920,
                     resolution_y := 1080, frame_start := some 1, frame_end := none } =
      UploadResponse.queued { output_format := "PNG", samples := -5,
                              resolution_x := 1920, resolution_y := 1080,
                              frame_start := some 1, frame_end := none } := by
  decide

/-- C3 amended: the only synchronous parameter rejection is an unsupported
format; all other parameters (including non-positive samples/resolutions and a
frame range with exactly one endpoint set) are forwarded unchecked to the
queued task. -/
theorem C3_amended (form : UploadForm) :
    (form.format ∈ SUPPORTED_FORMATS →
      uploadValidate form =
        UploadResponse.queued { output_format := form.format, samples := form.samples,
                                resolution_x := form.resolution_x,
                                resolution_y := form.resolution_y,
                                frame_start := form.frame_start,
                                frame_end := form.frame_end }) ∧
    (form.format ∉ SUPPORTED_FORMATS → uploadValidate form = UploadResponse.rejected 400) := by
  constructor <;> intro h <;> simp [uploadValidate, h]

/-- C3 witness: a known format is queued and an unknown one is rejected, at
concrete forms. -/
theorem C3_witness :
    uploadValidate { format := "GIF", samples := 128, resolution_x := 1920,
                     resolution_y := 1080, frame_start := none, frame_end := none } =
      UploadResponse.rejected 400 :=
  (C3_amended _).2 (by decide)

/-! ## Claim C5: failure diagnostics -/

/-- C5 counterexample: the diagnostic payload attached to a non-zero exit is
not truncated to any bounded size — for every candidate bound there is a
captured output (a single line of that many characters) whose diagnostic
exceeds it. -/
theorem C5_counterexample :
    ¬ ∃ B : ℕ, ∀ output_lines : List String,
        (failMessage 1 output_lines).length ≤ B := by
  rintro ⟨B, h⟩
  have hb := h [String.mk (List.replicate (B + 1) 'x')]
  have h1 : ("Blender render failed with code " ++ toString (1 : Int) ++ ":\n").length = 35 := by
    decide
  have h2 : String.intercalate "\n" [String.mk (List.replicate (B + 1) 'x')] =
      String.mk (List.replicate (B + 1) 'x') := rfl
  rw [failMessage, h2] at hb
  rw [String.length_append, String.length_append, String.length_append] at hb
  rw [String.length_append, String.length_append] at h1
  have h3 : (String.mk (List.replicate (B + 1) 'x')).length = B + 1 := by
    simp [String.length]
  omega

/-- C5 amended: a non-zero exit code ends the job Failed and the diagnostic
payload is the full captured combined output (every line, joined by newlines,
prefixed with the exit code) with no truncation. -/
theorem C5_amended (job_id : String) (returncode : Int)
    (output_lines : List String) (fs : FsState) (h : returncode ≠ 0) :
    (finalizeRender job_id returncode output_lines fs).1 =
      Outcome.error (failMessage returncode output_lines) := by
  simp [finalizeRender, h]

/-- C5 witness: the amended claim at exit code 1 with a concrete captured
output. -/
theorem C5_witness :
    (finalizeRender "job-5" 1 ["line one", "Error: boom"]
        { inputExists := true, outputEntries := [] }).1 =
      Outcome.error (failMessage 1 ["line one", "Error: boom"]) :=
  C5_amended "job-5" 1 ["line one", "Error: boom"]
    { inputExists := true, outputEntries := [] } (by decide)

/-! ## Claim C6: cleanup on failure -/

/-- C6 counterexample: after a failing render (exit code 1) with one partial
frame on disk, the partial artifact is still present in the output directory —
only the uploaded input copy is removed. -/
theorem C6_counterexample :
    (finalizeRender "job-6" 1 ["err"]
        { inputExists := true, outputEntries := ["frame_0001.png"] }).2 =
      { inputExists := false, outputEntries := ["frame_0001.png"] } := by
  decide

/-- C6 amended: on every outcome (failure or success) finalization removes the
uploaded input file copy and leaves the output directory's entries untouched;
partial artifacts are never deleted. -/
theorem C6_amended (job_id : String) (returncode : Int)
    (output_lines : List String) (fs : FsState) :
    (finalizeRender job_id returncode output_lines fs).2 =
      { inputExists := false, outputEntries := fs.outputEntries } := by
  rw [finalizeRender]
  split <;> rfl

/-! ## Claim C7: status lookup -/

/-- C7 counterexample: querying a never-submitted identifier does not produce
NotFound — it produces the ordinary Pending snapshot, byte-identical to the
snapshot of a genuinely submitted, not-yet-started job. -/
theorem C7_counterexample :
    get_status (asyncResult [] "no-such-job") =
      { state := "PENDING", status := "Pending...", progress := 0 } ∧
    get_status (asyncResult [] "no-such-job") =
      get_status (asyncResult [("job-7", TaskState.pending)] "job-7") := by
  decide

/-- C7 amended: `status(job_id)` always returns a snapshot and never a
NotFound error: an identifier that was never submitted yields the Pending
snapshot (state PENDING, progress 0), and a submitted identifier yields the
snapshot of its stored state. -/
theorem C7_amended (store : List (String × TaskState)) (id : String) :
    (store.lookup id = none →
      get_status (asyncResult store id) =
        { state := "PENDING", status := "Pending...", progress := 0 }) ∧
    (∀ st : TaskState, store.lookup id = some st →
      get_status (asyncResult store id) = get_status st) := by
  constructor
  · intro h
    simp [asyncResult, h, get_status]
  · intro st h
    simp [asyncResult, h]

/-- C7 witness: the amended claim at an empty store and a concrete unknown
identifier. -/
theorem C7_witness :
    get_status (asyncResult [] "bf0b2c9a") =
      { state := "PENDING", status := "Pending...", progress := 0 } :=
  (C7_amended [] "bf0b2c9a").1 rfl


/-! ## Claim C10: zero start frame disables frame-based progress -/

/-- C10: for a job submitted with `frame_start = 0` (and any `frame_end`),
every line with a `Fra:` marker followed by digits emits the fixed 50%
heartbeat with no frame numbers, because the Python truthiness test
`if frame_start:` treats 0 like an unset frame range. -/
theorem C10_theorem (frame_end : Option Int) (elapsed : ℚ) (line : List Char)
    (n : Nat)
    (hin : containsList ("Fra:".data) line = true)
    (hfra : findAfter ("Fra:".data) line = some n) :
    parseLine (some 0) frame_end elapsed line =
      some { status := "Rendering...", progress := 50 } := by
  simp [parseLine, hin, hfra, fraEvent, truthy]

/-- C10 witness: the heartbeat at the concrete line `Fra:7` with
`frame_start = 0`, `frame_end = 10`. -/
theorem C10_witness :
    parseLine (some 0) (some 10) 0 ("Fra:7".data) =
      some { status := "Rendering...", progress := 50 } :=
  C10_theorem (some 10) 0 ("Fra:7".data) 7 rfl rfl

/-! ## Claim C8: sample-marker events -/

/-- C8 counterexample: the line `Fra:1 Sample 64/128` contains the sample
marker with digits and no frame range is configured, yet the emitted event is
the 50% heartbeat, not the claimed sampling event — the `Fra:` branch of the
`if/elif` cascade takes precedence. -/
theorem C8_counterexample :
    parseLine none none 0 ("Fra:1 Sample 64/128".data) =
      some { status := "Rendering...", progress := 50 } ∧
    (some { status := "Rendering...", progress := 50 } : Option ProgressMeta) ≠
      some { status := "Sampling 64/128", progress := 45 } := by
  decide

/-- C8 amended: for every line matching `Sample current/total` that contains
neither a `Fra:` nor a `Saved:` marker, with a nonzero total and no `frame_end`
configured, the emitted event is
`{progress = floor(90 * current/total), message = "Sampling current/total"}`. -/
theorem C8_amended (frame_start frame_end : Option Int) (elapsed : ℚ)
    (line : List Char) (c t : Nat)
    (hnoFra : containsList ("Fra:".data) line = false)
    (hnoSaved : containsList ("Saved:".data) line = false)
    (hS : containsList ("Sample".data) line = true)
    (hSl : containsList ("/".data) line = true)
    (hmatch : findSample line = some (c, t))
    (hfe : truthy frame_end = false) (ht : t ≠ 0) :
    parseLine frame_start frame_end elapsed line =
      some { status := s!"Sampling {c}/{t}", progress := ((c * 90) / t : Nat) } := by
  simp [parseLine, hnoFra, hnoSaved, hS, hSl, hmatch, sampleEvent, hfe, ht]

/-- C8 witness (Scenario A): the still-image line `Sample 64/128` yields
percent 45 with a message mentioning 64/128. -/
theorem C8_witness :
    parseLine none none 0 ("Sample 64/128".data) =
      some { status := "Sampling 64/128", progress := 45 } :=
  C8_amended none none 0 ("Sample 64/128".data) 64 128 rfl rfl rfl rfl rfl rfl
    (by decide)


/-! ## Claim C2: progress bounds -/

/-- C2 counterexample: on the output line `Sample 200/100` (sample current
above total) the parser emits a Running-phase progress event with percent 180,
outside [0,100]; moreover the line `Sample 10/9` would emit exactly 100 while
Running. -/
theorem C2_counterexample :
    parseLine none none 0 ("Sample 200/100".data) =
      some { status := "Sampling 200/100", progress := 180 } ∧
    ¬ ((180 : Int) ≤ 100) := by
  decide

/-- C2 amended: progress percent of every emitted event lies in [0,95] — hence
in [0,100] and never 100 while Running — provided the renderer's lines are
well formed (any reported frame number is at least `frame_start` with a
positive configured total, and any sample count does not exceed its total);
the fixed pre-parse events obey the same bounds, and a status snapshot reports
percent 100 exactly in the SUCCESS state. -/
theorem C2_amended (frame_start frame_end : Option Int) (elapsed : ℚ)
    (line : List Char) (ev : ProgressMeta)
    (hframe : ∀ n : Nat, findAfter ("Fra:".data) line = some n →
      truthy frame_start = true →
      frame_start.getD 0 ≤ (n : Int) ∧ 0 < totalFrames frame_start frame_end)
    (hsample : ∀ c t : Nat, findSample line = some (c, t) → c ≤ t)
    (hev : parseLine frame_start frame_end elapsed line = some ev) :
    (0 ≤ ev.progress ∧ ev.progress ≤ 95) ∧
    (∀ m ∈ initialEvents, 0 ≤ m.progress ∧ m.progress ≤ 95) ∧
    (∀ st : TaskState,
      (∀ meta, st = TaskState.progress meta → meta.progress ≤ 95) →
      (get_status st).progress = 100 → ∃ r, st = TaskState.success r) := by
  refine ⟨?_, by decide, ?_⟩
  · rw [parseLine] at hev
    split at hev
    · next hFra =>
      cases hfind : findAfter ("Fra:".data) line with
      | none => rw [hfind] at hev; exact absurd hev (by simp)
      | some n =>
        rw [hfind] at hev
        simp only [fraEvent] at hev
        split at hev
        · next htr =>
          obtain ⟨hle, hpos⟩ := hframe n hfind htr
          split at hev
          · exact absurd hev (by simp)
          · next hne =>
            injection hev with hv
            subst hv
            constructor
            · refine le_min ?_ (by norm_num)
              refine Int.tdiv_nonneg ?_ (le_of_lt hpos)
              nlinarith [hle]
            · calc min (Int.tdiv (((n : Int) - frame_start.getD 0 + 1) * 90)
                    (totalFrames frame_start frame_end)) 90 ≤ 90 := min_le_right _ _
                _ ≤ 95 := by norm_num
        · injection hev with hv
          subst hv
          constructor <;> norm_num
    · split at hev
      · injection hev with hv
        subst hv
        constructor <;> norm_num
      · split at hev
        · cases hfind : findSample line with
          | none => rw [hfind] at hev; exact absurd hev (by simp)
          | some ct =>
            obtain ⟨c, t⟩ := ct
            rw [hfind] at hev
            have hct := hsample c t hfind
            simp only [sampleEvent] at hev
            split at hev
            · exact absurd hev (by simp)
            · split at hev
              · exact absurd hev (by simp)
              · next h0 h1 =>
                injection hev with hv
                subst hv
                have hdiv : (c * 90) / t ≤ 90 := by
                  have hmul : c * 90 ≤ 90 * t := by nlinarith
                  calc (c * 90) / t ≤ (90 * t) / t := Nat.div_le_div_right hmul
                    _ = 90 := Nat.mul_div_cancel 90 (show 0 < t by omega)
                refine ⟨?_, ?_⟩ <;> dsimp only
                · exact Int.natCast_nonneg _
                · omega
        · exact absurd hev (by simp)
  · intro st hbound h100
    cases st with
    | pending => simp [get_status] at h100
    | progress m =>
      exfalso
      have hm := hbound m rfl
      simp [get_status] at h100
      omega
    | success r => exact ⟨r, rfl⟩
    | failure msg => simp [get_status] at h100

/-- C2 witness: the amended bounds at the concrete well-formed line
`Sample 64/128` (event percent 45). -/
theorem C2_witness :
    (0 ≤ (ProgressMeta.mk "Sampling 64/128" 45 none none).progress ∧
      (ProgressMeta.mk "Sampling 64/128" 45 none none).progress ≤ 95) ∧
    (∀ m ∈ initialEvents, 0 ≤ m.progress ∧ m.progress ≤ 95) ∧
    (∀ st : TaskState,
      (∀ meta, st = TaskState.progress meta → meta.progress ≤ 95) →
      (get_status st).progress = 100 → ∃ r, st = TaskState.success r) :=
  C2_amended none none 0 ("Sample 64/128".data)
    (ProgressMeta.mk "Sampling 64/128" 45 none none)
    (by
      intro n h htr
      rw [show findAfter ("Fra:".data) ("Sample 64/128".data) = none from by decide] at h
      exact absurd h (by simp))
    (by
      intro c t h
      rw [show findSample ("Sample 64/128".data) = some (64, 128) from by decide] at h
      simp at h
      omega)
    (by decide)


/-! ## Claims C4 and C9: frame-marker events and ETA -/

/-- Helper: the event `fraEvent` produces when a genuine frame range is
configured (both endpoints set and nonzero) and the total is nonzero. -/
lemma fraEvent_range (fsv fev : Int) (elapsed : ℚ) (n : Nat)
    (hfs : fsv ≠ 0) (hfe : fev ≠ 0) (hne : fev - fsv + 1 ≠ 0) :
    fraEvent (some fsv) (some fev) elapsed n =
      some { status := s!"Rendering frame {(n : Int)}/{fev}{etaText elapsed ((n : Int) - fsv + 1) (fev - fsv + 1)}"
             progress := min (Int.tdiv (((n : Int) - fsv + 1) * 90) (fev - fsv + 1)) 90
             current_frame := some (n : Int)
             total_frames := some fev } := by
  have htr : truthy (some fsv) = true := by simp [truthy, hfs]
  have hte : truthy (some fev) = true := by simp [truthy, hfe]
  have htot : totalFrames (some fsv) (some fev) = fev - fsv + 1 := by
    simp [totalFrames, truthy, hfs, hfe]
  rw [fraEvent]
  simp only [htr, if_true, htot, hte]
  rw [if_neg hne]
  simp only [Option.getD_some]

/-- C4 counterexample: for frame range 1..10 the line `Fra:5` emits progress
45 — the code computes `min(90, floor(90 * frames_done/total))`, not the
claimed `min(90, floor(100 * frames_done/total))`, which would give 50. -/
theorem C4_counterexample :
    parseLine (some 1) (some 10) 0 ("Fra:5".data) =
      some { status := "Rendering frame 5/10 - ETA: 0s", progress := 45,
             current_frame := some 5, total_frames := some 10 } ∧
    (45 : Int) ≠ min 90 (Int.tdiv ((5 - 1 + 1) * 100) (10 - 1 + 1)) := by
  constructor
  · have hp : parseLine (some 1) (some 10) 0 ("Fra:5".data) =
        fraEvent (some 1) (some 10) 0 5 := rfl
    have he : etaText 0 5 10 = " - ETA: 0s" := by
      rw [etaText]
      norm_num [pyTrunc]
      decide
    rw [hp, fraEvent_range 1 10 0 5 (by decide) (by decide) (by decide)]
    norm_num
    rw [he]
    decide
  · decide

/-- C4 amended: for every line with a `Fra:` marker followed by digits, when a
genuine frame range is configured (both endpoints set and nonzero, start at
most the reported frame, positive total) the event carries the frame number
and `progress = min(90, floor(90 * (current_frame - frame_start + 1) /
total_frames))` (the factor is 90, not the claimed 100); when `frame_start` is
falsy the event is the fixed 50% heartbeat with no frame numbers. -/
theorem C4_amended (frame_start frame_end : Option Int) (elapsed : ℚ)
    (line : List Char) (n : Nat)
    (hin : containsList ("Fra:".data) line = true)
    (hfra : findAfter ("Fra:".data) line = some n) :
    (∀ fsv fev : Int, frame_start = some fsv → frame_end = some fev →
      fsv ≠ 0 → fev ≠ 0 → fsv ≤ (n : Int) → 0 < fev - fsv + 1 →
      ∃ ev, parseLine frame_start frame_end elapsed line = some ev ∧
        ev.current_frame = some (n : Int) ∧
        ev.progress = min 90 ((((n : Int) - fsv + 1) * 90) / (fev - fsv + 1))) ∧
    (truthy frame_start = false →
      parseLine frame_start frame_end elapsed line =
        some { status := "Rendering...", progress := 50 }) := by
  constructor
  · rintro fsv fev rfl rfl hfs hfe hle hpos
    have hp : parseLine (some fsv) (some fev) elapsed line =
        fraEvent (some fsv) (some fev) elapsed n := by
      simp [parseLine, hin, hfra]
    rw [hp, fraEvent_range fsv fev elapsed n hfs hfe (by omega)]
    refine ⟨_, rfl, rfl, ?_⟩
    rw [Int.tdiv_eq_ediv (by nlinarith) (by omega), min_comm]
  · intro hfalse
    simp [parseLine, hin, hfra, fraEvent, hfalse]

/-- C4 witness: the amended claim at frame range 1..10 and the concrete line
`Fra:5` (progress 45). -/
theorem C4_witness :
    ∃ ev, parseLine (some 1) (some 10) 0 ("Fra:5".data) = some ev ∧
      ev.current_frame = some ((5 : ℕ) : Int) ∧
      ev.progress = min 90 ((((5 : ℕ) : Int) - 1 + 1) * 90 / (10 - 1 + 1)) :=
  (C4_amended (some 1) (some 10) 0 ("Fra:5".data) 5 rfl rfl).1 1 10 rfl rfl
    (by decide) (by decide) (by decide) (by decide)

/-- C9 counterexample: with frame range 1..10, the line `Fra:5` after exactly
60 elapsed seconds projects an ETA of exactly 60 seconds, which the code
formats as plain seconds (`60s`) while the claim requires minutes+seconds
(`1m 0s`) for any value at least 60. -/
theorem C9_counterexample :
    parseLine (some 1) (some 10) 60 ("Fra:5".data) =
      some { status := "Rendering frame 5/10 - ETA: 60s", progress := 45,
             current_frame := some 5, total_frames := some 10 } ∧
    ("Rendering frame 5/10 - ETA: 60s" : String) ≠
      "Rendering frame 5/10 - ETA: 1m 0s" := by
  constructor
  · have hp : parseLine (some 1) (some 10) 60 ("Fra:5".data) =
        fraEvent (some 1) (some 10) 60 5 := rfl
    have he : etaText 60 5 10 = " - ETA: 60s" := by
      rw [etaText]
      norm_num [pyTrunc]
      decide
    rw [hp, fraEvent_range 1 10 60 5 (by decide) (by decide) (by decide)]
    norm_num
    rw [he]
    decide
  · decide

/-- C9 amended: whenever at least one frame has completed, the code's ETA text
equals the spec's formula — running average `elapsed / frames_completed` times
`frames_remaining` — with the format boundary amended to minutes+seconds only
when strictly greater than 60 seconds; and Scenario B holds: `Fra:5` for range
1..10 after 40 elapsed seconds yields current_frame 5, percent 45 and ETA
40s. -/
theorem C9_amended (elapsed : ℚ) (frames_done total : Int) (h : 0 < frames_done) :
    etaText elapsed frames_done total =
      etaSpecText elapsed frames_done (total - frames_done) ∧
    parseLine (some 1) (some 10) 40 ("Fra:5".data) =
      some { status := "Rendering frame 5/10 - ETA: 40s", progress := 45,
             current_frame := some 5, total_frames := some 10 } := by
  constructor
  · rw [etaText, etaSpecText, if_pos h]
    dsimp only
    rw [mul_comm ((total - frames_done : Int) : ℚ) (elapsed / (frames_done : ℚ))]
  · have hp : parseLine (some 1) (some 10) 40 ("Fra:5".data) =
        fraEvent (some 1) (some 10) 40 5 := rfl
    have he : etaText 40 5 10 = " - ETA: 40s" := by
      rw [etaText]
      norm_num [pyTrunc]
      decide
    rw [hp, fraEvent_range 1 10 40 5 (by decide) (by decide) (by decide)]
    norm_num
    rw [he]
    decide

/-- C9 witness: the amended claim at 40 elapsed seconds, 5 frames done of a
10-frame total. -/
theorem C9_witness :
    etaText 40 5 10 = etaSpecText 40 5 (10 - 5) ∧
    parseLine (some 1) (some 10) 40 ("Fra:5".data) =
      some { status := "Rendering frame 5/10 - ETA: 40s", progress := 45,
             current_frame := some 5, total_frames := some 10 } :=
  C9_amended 40 5 10 (by decide)

end BlenderFarm
